import Mathlib

/-!
# Shallow embedding of `src/services/BarcodeDetectionService.ts`

The service is an Angular singleton wrapping the browser BarcodeDetector
capability.  We model one service instance as a record of its mutable
fields, together with bookkeeping fields that record the interactions the
claims speak about (how many camera-acquisition requests were issued, which
media streams had their tracks stopped, what was logged to the console,
whether a next detection tick is scheduled).  Asynchronous callbacks
(`getUserMedia().then/.catch`, `detector.detect().then/.catch`) are modelled
as separate state-transition functions, so that interleavings such as
"stopScanning runs before the acquisition promise resolves" are expressible.
-/

/-- A JavaScript error value as the service distinguishes them: the
`new Error('Barcode Detection API is not supported in this browser')`
raised on an unsupported environment, or an opaque error coming from the
host platform (camera acquisition rejection, per-frame detection
rejection), identified by a number. -/
inductive JsError where
  | notSupportedError : JsError
  | underlying : Nat → JsError
deriving DecidableEq, Repr

/-- The message of an error, as the source constructs it. -/
def JsError.message : JsError → String
  | .notSupportedError => "Barcode Detection API is not supported in this browser"
  | .underlying _ => ""

/-- The observable side of an rxjs `Subject<string>`: the values delivered
so far and the terminal error, if any.  Once a Subject has errored it is
stopped: further `next`/`error` calls are ignored. -/
structure SubjectState where
  emitted : List String
  errored : Option JsError
deriving DecidableEq, Repr

/-- `subject.next(v)` — delivers `v` unless the subject is stopped. -/
def SubjectState.next (st : SubjectState) (v : String) : SubjectState :=
  if st.errored.isSome then st else { st with emitted := st.emitted ++ [v] }

/-- `subject.error(e)` — terminates the subject unless already stopped. -/
def SubjectState.error (st : SubjectState) (e : JsError) : SubjectState :=
  if st.errored.isSome then st else { st with errored := some e }

/-- One detected barcode, as the detection capability reports it; the
source only reads its `rawValue`. -/
structure Barcode where
  rawValue : String
deriving DecidableEq, Repr

/-- The state of one `BarcodeDetectionService` instance.

Fields up to `supportedFormats` are the class's own private fields
(`detector` is reduced to presence, `videoElement` and `mediaStream` to
numeric handles, `barcodeSubject` to its `SubjectState`).  The remaining
fields record the externally observable interactions:
`pendingAcquisition` — an issued `getUserMedia` request whose promise has
not settled; `acquisitionCount` — how many `getUserMedia` requests were
ever issued; `boundStream`/`playing` — the `srcObject` binding and `play()`
call on the current video element; `loopScheduled` — whether a
`requestAnimationFrame(detectBarcodes)` continuation is scheduled;
`consoleErrors` — arguments of `console.error` calls; `stoppedStreams` —
streams whose tracks were stopped; `subjectId` — the identity of the one
`barcodeSubject` this instance ever hands out. -/
structure BarcodeDetectionService where
  isBarcodeDetectionSupported : Bool
  scannerActive : Bool
  videoElement : Option Nat
  detectorPresent : Bool
  subject : SubjectState
  mediaStream : Option Nat
  supportedFormats : List String
  pendingAcquisition : Bool
  acquisitionCount : Nat
  boundStream : Option Nat
  playing : Bool
  loopScheduled : Bool
  consoleErrors : List JsError
  stoppedStreams : List Nat
  subjectId : Nat
deriving DecidableEq, Repr

/-- The constructor: probes `'BarcodeDetector' in window` (passed in as
`supported`) and creates the detector exactly when the capability is
present. -/
def BarcodeDetectionService.new (supported : Bool) : BarcodeDetectionService :=
  { isBarcodeDetectionSupported := supported
    scannerActive := false
    videoElement := none
    detectorPresent := supported
    subject := { emitted := [], errored := none }
    mediaStream := none
    supportedFormats := []
    pendingAcquisition := false
    acquisitionCount := 0
    boundStream := none
    playing := false
    loopScheduled := false
    consoleErrors := []
    stoppedStreams := []
    subjectId := 0 }

/-- `isSupported()`. -/
def BarcodeDetectionService.isSupported (σ : BarcodeDetectionService) : Bool :=
  σ.isBarcodeDetectionSupported

/-- `isScannerActive()`. -/
def BarcodeDetectionService.isScannerActive (σ : BarcodeDetectionService) : Bool :=
  σ.scannerActive

/-- The outcome of a `startScanning` call: either it returns
`this.barcodeSubject.asObservable()` — a channel identified by the
subject's id — in the given post-state, or it throws (in JavaScript,
reading `.nativeElement` of an `undefined` argument raises a TypeError)
leaving the given post-state. -/
inductive StartResult where
  | channel : BarcodeDetectionService → Nat → StartResult
  | thrown : BarcodeDetectionService → StartResult
deriving DecidableEq, Repr

/-- The post-state of a `startScanning` call, for either outcome. -/
def StartResult.state : StartResult → BarcodeDetectionService
  | .channel σ _ => σ
  | .thrown σ => σ

/-- Whether the call threw instead of returning a channel. -/
def StartResult.isThrown : StartResult → Bool
  | .channel _ _ => false
  | .thrown _ => true

/-- `startScanning(videoElementRef)` up to the point where it returns.
The TypeScript signature requires `videoElementRef`; we take an
`Option Nat` so that the behaviour of a call that supplies no sink (in
JavaScript, the argument is `undefined`) is expressible: after the
supported/active guards, `this.scannerActive = true` runs, and then
`videoElementRef.nativeElement` throws.  With a sink supplied, the sink is
stored and one `getUserMedia` request is issued; the promise callbacks are
`acquireResolve`/`acquireReject` below. -/
def BarcodeDetectionService.startScanning (σ : BarcodeDetectionService)
    (sink : Option Nat) : StartResult :=
  if !σ.isBarcodeDetectionSupported then
    .channel { σ with subject := σ.subject.error .notSupportedError } σ.subjectId
  else if σ.scannerActive then
    .channel σ σ.subjectId
  else
    match sink with
    | none => .thrown { σ with scannerActive := true }
    | some v =>
        .channel
          { σ with scannerActive := true
                   videoElement := some v
                   pendingAcquisition := true
                   acquisitionCount := σ.acquisitionCount + 1 }
          σ.subjectId

/-- The `.then(stream => ...)` callback of the `getUserMedia` promise,
fired when a pending acquisition resolves with `stream`: stores
`this.mediaStream = stream` unconditionally, and only if `this.videoElement`
is still set binds the stream to it, starts playback and starts the
detection loop. -/
def BarcodeDetectionService.acquireResolve (σ : BarcodeDetectionService)
    (stream : Nat) : BarcodeDetectionService :=
  if !σ.pendingAcquisition then σ
  else
    let σ1 := { σ with pendingAcquisition := false, mediaStream := some stream }
    match σ1.videoElement with
    | some _ =>
        { σ1 with boundStream := some stream, playing := true, loopScheduled := true }
    | none => σ1

/-- The `.catch(error => ...)` callback of the `getUserMedia` promise,
fired when a pending acquisition rejects: clears `this.scannerActive` and
errors the subject with the underlying error. -/
def BarcodeDetectionService.acquireReject (σ : BarcodeDetectionService)
    (e : Nat) : BarcodeDetectionService :=
  if !σ.pendingAcquisition then σ
  else
    { σ with pendingAcquisition := false
             scannerActive := false
             subject := σ.subject.error (.underlying e) }

/-- `stopScanning()`: clears `scannerActive`; stops the media stream's
tracks and nulls `mediaStream` if present; nulls `videoElement.srcObject`
and `videoElement` if present. -/
def BarcodeDetectionService.stopScanning (σ : BarcodeDetectionService) :
    BarcodeDetectionService :=
  let σ1 := { σ with scannerActive := false }
  let σ2 :=
    match σ1.mediaStream with
    | some s => { σ1 with stoppedStreams := σ1.stoppedStreams ++ [s], mediaStream := none }
    | none => σ1
  match σ2.videoElement with
  | some _ => { σ2 with boundStream := none, videoElement := none }
  | none => σ2

/-- The `.then((barcodes) => ...)` callback of one `detector.detect` tick:
if the frame yielded any matches, `barcodes[0].rawValue` is forwarded to
the subject (the remaining matches are never read); then a next tick is
scheduled via `requestAnimationFrame` exactly when `scannerActive` still
holds. -/
def BarcodeDetectionService.detectThen (σ : BarcodeDetectionService)
    (barcodes : List Barcode) : BarcodeDetectionService :=
  let σ1 :=
    match barcodes with
    | [] => σ
    | b :: _ => { σ with subject := σ.subject.next b.rawValue }
  { σ1 with loopScheduled := σ1.scannerActive }

/-- The `.catch((error) => ...)` callback of one `detector.detect` tick:
logs the error via `console.error` and schedules a next tick exactly when
`scannerActive` still holds; the subject is untouched. -/
def BarcodeDetectionService.detectCatch (σ : BarcodeDetectionService)
    (e : JsError) : BarcodeDetectionService :=
  let σ1 := { σ with consoleErrors := σ.consoleErrors ++ [e] }
  { σ1 with loopScheduled := σ1.scannerActive }

/-- What one `getSupportedFormats()` call does: the sequence the returned
observable carries (or its error), the post-state, and how many times the
capability's format query was invoked by this call.  `capability` is the
outcome the environment's `BarcodeDetector.getSupportedFormats()` promise
would settle with; the source calls it eagerly in the fall-through branch
(`from(... .getSupportedFormats())`), so that branch counts one query.
Note the source never writes to `this.supportedFormats`, so the post-state
is the input state in every branch. -/
structure FormatsQuery where
  result : Except JsError (List String)
  state : BarcodeDetectionService
  queries : Nat
deriving Repr

/-- `getSupportedFormats()`. -/
def BarcodeDetectionService.getSupportedFormats (σ : BarcodeDetectionService)
    (capability : Except JsError (List String)) : FormatsQuery :=
  if !σ.isBarcodeDetectionSupported then ⟨.ok [], σ, 0⟩
  else if σ.supportedFormats.length > 0 then ⟨.ok σ.supportedFormats, σ, 0⟩
  else ⟨capability, σ, 1⟩

/-- JavaScript `s.replace('_', ' ')` on a single-character pattern:
replaces only the first occurrence. -/
def replaceFirstUnderscoreAux : List Char → List Char
  | [] => []
  | c :: cs => if c = '_' then ' ' :: cs else c :: replaceFirstUnderscoreAux cs

/-- `format.replace('_', ' ')`. -/
def replaceFirstUnderscore (s : String) : String :=
  ⟨replaceFirstUnderscoreAux s.data⟩

/-- JavaScript `s.toUpperCase()` on the ASCII identifiers at hand:
character-wise uppercasing. -/
def toUpperString (s : String) : String :=
  ⟨s.data.map Char.toUpper⟩

/-- The cases of the `switch(format)` statement inside
`getFormattedSupportedFormats`, as an association list (the case keys are
pairwise distinct, so first-match lookup is exactly the switch). -/
def formatLookupTable : List (String × String) :=
  [("aztec", "Aztec"), ("code_128", "Code 128"), ("code_39", "Code 39"),
   ("code_93", "Code 93"), ("codabar", "Codabar"), ("data_matrix", "Data Matrix"),
   ("ean_13", "EAN-13"), ("ean_8", "EAN-8"), ("itf", "ITF"), ("pdf417", "PDF417"),
   ("qr_code", "QR Code"), ("upc_a", "UPC-A"), ("upc_e", "UPC-E")]

/-- The `switch(format)` of `getFormattedSupportedFormats`: the fixed
lookup table, with the default branch
`format.replace('_', ' ').toUpperCase()`. -/
def formatLabel (format : String) : String :=
  match formatLookupTable.lookup format with
  | some label => label
  | none => toUpperString (replaceFirstUnderscore format)

/-- The fallback rendering as claim C9 words it: uppercase the identifier
and replace (all of) its underscores with spaces.  Stated separately from
the source's `formatLabel` so the two can be compared. -/
def claimedFallbackLabel (format : String) : String :=
  toUpperString ⟨format.data.map fun c => if c = '_' then ' ' else c⟩

/-- The body of the `map` operator of `getFormattedSupportedFormats`:
empty sequence renders as the sentinel, otherwise the labels are joined
with a comma and a space. -/
def formatDisplay (formats : List String) : String :=
  if formats.length = 0 then "No formats supported"
  else String.intercalate ", " (formats.map formatLabel)

/-- `getFormattedSupportedFormats()`: pipes `getSupportedFormats()` through
`catchError(() => of([]))` and the display `map`. -/
def BarcodeDetectionService.getFormattedSupportedFormats
    (σ : BarcodeDetectionService)
    (capability : Except JsError (List String)) : String :=
  let q := σ.getSupportedFormats capability
  let formats :=
    match q.result with
    | .ok l => l
    | .error _ => []
  formatDisplay formats

/-- A concrete supported service that has issued one acquisition and is
mid-acquisition: the state right after `startScanning(sink 0)` on a fresh
supported instance. -/
def activeDemo : BarcodeDetectionService :=
  ((BarcodeDetectionService.new true).startScanning (some 0)).state

/-- Helper: on a supported instance whose cache field is (still) empty,
`getSupportedFormats` falls through to the capability query. -/
theorem getSupportedFormats_fresh (σ : BarcodeDetectionService)
    (cap : Except JsError (List String))
    (hsup : σ.isBarcodeDetectionSupported = true) (hcache : σ.supportedFormats = []) :
    σ.getSupportedFormats cap = ⟨cap, σ, 1⟩ := by
  simp [BarcodeDetectionService.getSupportedFormats, hsup, hcache]

/-- C1: the code at the claim's scenario — a fresh supported service whose
capability reports ["ean_13", "qr_code"], called twice.  The first call
performs one capability query and returns the reported sequence, but the
cache field is never written, so the second call performs a second query
(not zero), contradicting the claim. -/
theorem getSupportedFormats_requeries_every_call :
    ((BarcodeDetectionService.new true).getSupportedFormats
        (.ok ["ean_13", "qr_code"])).queries = 1 ∧
    ((BarcodeDetectionService.new true).getSupportedFormats
        (.ok ["ean_13", "qr_code"])).result = .ok ["ean_13", "qr_code"] ∧
    ((BarcodeDetectionService.new true).getSupportedFormats
        (.ok ["ean_13", "qr_code"])).state.supportedFormats = [] ∧
    ((((BarcodeDetectionService.new true).getSupportedFormats
        (.ok ["ean_13", "qr_code"])).state).getSupportedFormats
        (.ok ["ean_13", "qr_code"])).queries = 1 :=
  ⟨rfl, rfl, rfl, rfl⟩

/-- C2: the code at the claim's race — startScanning on a fresh supported
service, then stopScanning before the acquisition promise resolves, then
the resolution delivering stream 5.  The resulting reachable state has
active = false while mediaStream is non-null and the stream's tracks were
never stopped, violating the claimed invariant. -/
theorem stop_before_resolve_leaks_stream :
    (activeDemo.stopScanning.acquireResolve 5).scannerActive = false ∧
    (activeDemo.stopScanning.acquireResolve 5).mediaStream = some 5 ∧
    (activeDemo.stopScanning.acquireResolve 5).stoppedStreams = [] := by
  decide

/-- C3: a startScanning call on a supported instance whose session is
already active returns the one channel the service ever hands out (the
same subject id as every earlier return), leaves the state unchanged, and
issues no further camera-acquisition request. -/
theorem startScanning_reentrant_noop (σ : BarcodeDetectionService) (sink : Option Nat)
    (hsup : σ.isBarcodeDetectionSupported = true) (hact : σ.scannerActive = true) :
    σ.startScanning sink = .channel σ σ.subjectId ∧
    (σ.startScanning sink).state.acquisitionCount = σ.acquisitionCount := by
  simp [BarcodeDetectionService.startScanning, StartResult.state, hsup, hact]

/-- Witness for C3 at the concrete mid-acquisition state. -/
theorem startScanning_reentrant_noop_witness :
    activeDemo.startScanning (some 1) = .channel activeDemo activeDemo.subjectId ∧
    (activeDemo.startScanning (some 1)).state.acquisitionCount =
      activeDemo.acquisitionCount :=
  startScanning_reentrant_noop activeDemo (some 1) (by decide) (by decide)

/-- C4: counterexample to the claim as stated — on a fresh supported
service, a startScanning call that supplies no sink throws (reading the
missing reference's element) instead of creating and attaching a hidden
sink: no sink is attached and no playback begins. -/
theorem startScanning_without_sink_throws :
    ((BarcodeDetectionService.new true).startScanning none).isThrown = true ∧
    ((BarcodeDetectionService.new true).startScanning none).state.videoElement = none ∧
    ((BarcodeDetectionService.new true).startScanning none).state.playing = false := by
  decide

/-- C4 amended: startScanning requires a caller-supplied sink.  With one
supplied (supported, inactive session) it stores the sink and issues one
camera-acquisition request, and on acquisition success binds the acquired
stream to that sink, begins playback and starts the detection loop; with
no sink supplied the call throws rather than creating a hidden sink. -/
theorem startScanning_requires_sink (σ : BarcodeDetectionService) (v s : Nat)
    (hsup : σ.isBarcodeDetectionSupported = true) (hact : σ.scannerActive = false) :
    (σ.startScanning (some v)).state.videoElement = some v ∧
    (σ.startScanning (some v)).state.acquisitionCount = σ.acquisitionCount + 1 ∧
    ((σ.startScanning (some v)).state.acquireResolve s).boundStream = some s ∧
    ((σ.startScanning (some v)).state.acquireResolve s).playing = true ∧
    ((σ.startScanning (some v)).state.acquireResolve s).loopScheduled = true ∧
    (σ.startScanning none).isThrown = true := by
  simp [BarcodeDetectionService.startScanning, BarcodeDetectionService.acquireResolve,
        StartResult.state, StartResult.isThrown, hsup, hact]

/-- Witness for the amended C4 on a fresh supported service. -/
theorem startScanning_requires_sink_witness :
    ((BarcodeDetectionService.new true).startScanning (some 0)).state.videoElement = some 0 ∧
    ((BarcodeDetectionService.new true).startScanning (some 0)).state.acquisitionCount =
      (BarcodeDetectionService.new true).acquisitionCount + 1 ∧
    (((BarcodeDetectionService.new true).startScanning (some 0)).state.acquireResolve 5).boundStream = some 5 ∧
    (((BarcodeDetectionService.new true).startScanning (some 0)).state.acquireResolve 5).playing = true ∧
    (((BarcodeDetectionService.new true).startScanning (some 0)).state.acquireResolve 5).loopScheduled = true ∧
    ((BarcodeDetectionService.new true).startScanning none).isThrown = true :=
  startScanning_requires_sink (BarcodeDetectionService.new true) 0 5 rfl rfl

/-- C5: in an unsupported environment with a live channel, isSupported
reports false, and startScanning terminates the channel with the
unsupported error and returns it, issuing no camera-acquisition request. -/
theorem unsupported_terminates_without_hardware (σ : BarcodeDetectionService)
    (sink : Option Nat)
    (hsup : σ.isBarcodeDetectionSupported = false) (hlive : σ.subject.errored = none) :
    σ.isSupported = false ∧
    σ.startScanning sink =
      .channel { σ with subject := { σ.subject with errored := some .notSupportedError } }
        σ.subjectId ∧
    (σ.startScanning sink).state.acquisitionCount = σ.acquisitionCount ∧
    JsError.message .notSupportedError =
      "Barcode Detection API is not supported in this browser" := by
  simp [BarcodeDetectionService.isSupported, BarcodeDetectionService.startScanning,
        StartResult.state, SubjectState.error, JsError.message, hsup, hlive]

/-- Witness for C5 on a fresh unsupported service. -/
theorem unsupported_terminates_without_hardware_witness :
    (BarcodeDetectionService.new false).isSupported = false ∧
    (BarcodeDetectionService.new false).startScanning none =
      .channel { BarcodeDetectionService.new false with
                   subject := { (BarcodeDetectionService.new false).subject with
                                  errored := some .notSupportedError } }
        (BarcodeDetectionService.new false).subjectId ∧
    ((BarcodeDetectionService.new false).startScanning none).state.acquisitionCount =
      (BarcodeDetectionService.new false).acquisitionCount ∧
    JsError.message .notSupportedError =
      "Barcode Detection API is not supported in this browser" :=
  unsupported_terminates_without_hardware (BarcodeDetectionService.new false) none rfl rfl

/-- C6: when a pending camera acquisition rejects, the session rolls back
to inactive, nothing is released or changed otherwise (media stream, sink,
bindings, stop list untouched), the channel terminates with the underlying
error, and no further acquisition is issued and no loop is started. -/
theorem acquisition_failure_rolls_back (σ : BarcodeDetectionService) (e : Nat)
    (hp : σ.pendingAcquisition = true) (hlive : σ.subject.errored = none) :
    (σ.acquireReject e).scannerActive = false ∧
    (σ.acquireReject e).subject.errored = some (.underlying e) ∧
    (σ.acquireReject e).subject.emitted = σ.subject.emitted ∧
    (σ.acquireReject e).mediaStream = σ.mediaStream ∧
    (σ.acquireReject e).stoppedStreams = σ.stoppedStreams ∧
    (σ.acquireReject e).videoElement = σ.videoElement ∧
    (σ.acquireReject e).boundStream = σ.boundStream ∧
    (σ.acquireReject e).acquisitionCount = σ.acquisitionCount ∧
    (σ.acquireReject e).pendingAcquisition = false ∧
    (σ.acquireReject e).loopScheduled = σ.loopScheduled := by
  simp [BarcodeDetectionService.acquireReject, SubjectState.error, hp, hlive]

/-- Witness for C6 at the concrete mid-acquisition state. -/
theorem acquisition_failure_rolls_back_witness :
    (activeDemo.acquireReject 7).scannerActive = false ∧
    (activeDemo.acquireReject 7).subject.errored = some (.underlying 7) ∧
    (activeDemo.acquireReject 7).subject.emitted = activeDemo.subject.emitted ∧
    (activeDemo.acquireReject 7).mediaStream = activeDemo.mediaStream ∧
    (activeDemo.acquireReject 7).stoppedStreams = activeDemo.stoppedStreams ∧
    (activeDemo.acquireReject 7).videoElement = activeDemo.videoElement ∧
    (activeDemo.acquireReject 7).boundStream = activeDemo.boundStream ∧
    (activeDemo.acquireReject 7).acquisitionCount = activeDemo.acquisitionCount ∧
    (activeDemo.acquireReject 7).pendingAcquisition = false ∧
    (activeDemo.acquireReject 7).loopScheduled = activeDemo.loopScheduled :=
  acquisition_failure_rolls_back activeDemo 7 rfl rfl

/-- C7: on a detection tick of an active session with a live channel, a
frame with matches b :: rest forwards exactly b's raw value (the tail is
never read), the channel stays unterminated, and the next tick is
scheduled; a frame with zero matches forwards nothing and the next tick is
still scheduled. -/
theorem detect_tick_first_match_wins (σ : BarcodeDetectionService)
    (b : Barcode) (rest : List Barcode)
    (hact : σ.scannerActive = true) (hlive : σ.subject.errored = none) :
    (σ.detectThen (b :: rest)).subject.emitted = σ.subject.emitted ++ [b.rawValue] ∧
    (σ.detectThen (b :: rest)).subject.errored = none ∧
    (σ.detectThen (b :: rest)).loopScheduled = true ∧
    (σ.detectThen []).subject = σ.subject ∧
    (σ.detectThen []).loopScheduled = true := by
  simp [BarcodeDetectionService.detectThen, SubjectState.next, hact, hlive]

/-- Witness for C7 at the concrete mid-acquisition state with a two-match
frame. -/
theorem detect_tick_first_match_wins_witness :
    (activeDemo.detectThen [⟨"4006381333931"⟩, ⟨"9780201379624"⟩]).subject.emitted =
      activeDemo.subject.emitted ++ ["4006381333931"] ∧
    (activeDemo.detectThen [⟨"4006381333931"⟩, ⟨"9780201379624"⟩]).subject.errored = none ∧
    (activeDemo.detectThen [⟨"4006381333931"⟩, ⟨"9780201379624"⟩]).loopScheduled = true ∧
    (activeDemo.detectThen []).subject = activeDemo.subject ∧
    (activeDemo.detectThen []).loopScheduled = true :=
  detect_tick_first_match_wins activeDemo ⟨"4006381333931"⟩ [⟨"9780201379624"⟩] rfl rfl

/-- C8: a per-frame detection failure during an active session leaves the
channel untouched (neither a value nor a termination reaches subscribers),
reports the error to the console collaborator, keeps the session active
and schedules the next tick. -/
theorem detect_failure_absorbed (σ : BarcodeDetectionService) (e : JsError)
    (hact : σ.scannerActive = true) :
    (σ.detectCatch e).subject = σ.subject ∧
    (σ.detectCatch e).consoleErrors = σ.consoleErrors ++ [e] ∧
    (σ.detectCatch e).loopScheduled = true ∧
    (σ.detectCatch e).scannerActive = true := by
  simp [BarcodeDetectionService.detectCatch, hact]

/-- Witness for C8 at the concrete mid-acquisition state. -/
theorem detect_failure_absorbed_witness :
    (activeDemo.detectCatch (.underlying 2)).subject = activeDemo.subject ∧
    (activeDemo.detectCatch (.underlying 2)).consoleErrors =
      activeDemo.consoleErrors ++ [.underlying 2] ∧
    (activeDemo.detectCatch (.underlying 2)).loopScheduled = true ∧
    (activeDemo.detectCatch (.underlying 2)).scannerActive = true :=
  detect_failure_absorbed activeDemo (.underlying 2) rfl

/-- C9: counterexample to the claim as stated — on the unmapped identifier
"ab_cd_ef" (two underscores) the code renders "AB CD_EF", because the
fallback replaces only the first underscore, while the claimed rendering
(all underscores replaced with spaces) would be "AB CD EF". -/
theorem fallback_replaces_only_first_underscore :
    (BarcodeDetectionService.new true).getFormattedSupportedFormats
        (.ok ["ab_cd_ef"]) = "AB CD_EF" ∧
    claimedFallbackLabel "ab_cd_ef" = "AB CD EF" ∧
    ("AB CD_EF" : String) ≠ "AB CD EF" := by
  decide

/-- C9 amended: getFormattedSupportedFormats maps each identifier through
the fixed lookup table, renders an unmapped identifier by replacing its
first underscore with a space and uppercasing, joins the labels with a
comma and a space, and treats an upstream failure as the empty sequence;
on formats ["ean_13", "upc_a", "xyz_code"] it yields exactly
"EAN-13, UPC-A, XYZ CODE". -/
theorem formatted_formats_amended (σ : BarcodeDetectionService) (e : JsError)
    (l : List String) (f : String)
    (hsup : σ.isBarcodeDetectionSupported = true) (hcache : σ.supportedFormats = []) :
    σ.getFormattedSupportedFormats (.ok ["ean_13", "upc_a", "xyz_code"]) =
      "EAN-13, UPC-A, XYZ CODE" ∧
    σ.getFormattedSupportedFormats (.error e) = formatDisplay [] ∧
    (l ≠ [] → σ.getFormattedSupportedFormats (.ok l) =
      String.intercalate ", " (l.map formatLabel)) ∧
    (formatLookupTable.lookup f = none →
      formatLabel f = toUpperString (replaceFirstUnderscore f)) := by
  refine ⟨?_, ?_, ?_, ?_⟩
  · simp [BarcodeDetectionService.getFormattedSupportedFormats,
          getSupportedFormats_fresh σ _ hsup hcache]
    decide
  · simp [BarcodeDetectionService.getFormattedSupportedFormats,
          getSupportedFormats_fresh σ _ hsup hcache]
  · intro hl
    simp [BarcodeDetectionService.getFormattedSupportedFormats,
          getSupportedFormats_fresh σ _ hsup hcache, formatDisplay,
          List.length_eq_zero, hl]
  · intro hf
    simp [formatLabel, hf]

/-- Witness for the amended C9 on a fresh supported service. -/
theorem formatted_formats_amended_witness :
    (BarcodeDetectionService.new true).getFormattedSupportedFormats
        (.ok ["ean_13", "upc_a", "xyz_code"]) = "EAN-13, UPC-A, XYZ CODE" ∧
    (BarcodeDetectionService.new true).getFormattedSupportedFormats
        (.error (.underlying 1)) = formatDisplay [] ∧
    ((["qr_code"] : List String) ≠ [] →
      (BarcodeDetectionService.new true).getFormattedSupportedFormats (.ok ["qr_code"]) =
        String.intercalate ", " ((["qr_code"] : List String).map formatLabel)) ∧
    (formatLookupTable.lookup "xyz_code" = none →
      formatLabel "xyz_code" = toUpperString (replaceFirstUnderscore "xyz_code")) :=
  formatted_formats_amended (BarcodeDetectionService.new true) (.underlying 1)
    ["qr_code"] "xyz_code" rfl rfl

/-- C10: whenever the sequence reaching the display map is empty — the
environment is unsupported, or a supported query's upstream failure was
absorbed to the empty sequence — the emitted string is the sentinel
"No formats supported", which is not the empty string joining an empty
sequence would give. -/
theorem empty_formats_sentinel (σ : BarcodeDetectionService) (e : JsError)
    (cap : Except JsError (List String)) (hcache : σ.supportedFormats = []) :
    (σ.isBarcodeDetectionSupported = false →
      σ.getFormattedSupportedFormats cap = "No formats supported") ∧
    (σ.isBarcodeDetectionSupported = true →
      σ.getFormattedSupportedFormats (.error e) = "No formats supported") ∧
    formatDisplay [] = "No formats supported" ∧
    ("No formats supported" : String) ≠ "" := by
  refine ⟨?_, ?_, rfl, by decide⟩
  · intro h
    simp [BarcodeDetectionService.getFormattedSupportedFormats,
          BarcodeDetectionService.getSupportedFormats, h, formatDisplay]
  · intro h
    simp [BarcodeDetectionService.getFormattedSupportedFormats,
          getSupportedFormats_fresh σ _ h hcache, formatDisplay]

/-- Witness for C10 on a fresh supported service with a failing upstream
query. -/
theorem empty_formats_sentinel_witness :
    ((BarcodeDetectionService.new true).isBarcodeDetectionSupported = false →
      (BarcodeDetectionService.new true).getFormattedSupportedFormats
        (.ok ["qr_code"]) = "No formats supported") ∧
    ((BarcodeDetectionService.new true).isBarcodeDetectionSupported = true →
      (BarcodeDetectionService.new true).getFormattedSupportedFormats
        (.error (.underlying 9)) = "No formats supported") ∧
    formatDisplay [] = "No formats supported" ∧
    ("No formats supported" : String) ≠ "" :=
  empty_formats_sentinel (BarcodeDetectionService.new true) (.underlying 9)
    (.ok ["qr_code"]) rfl
